import Mathlib

/-!
Verification of the AcceleRender swap-chain core: a shallow embedding of
`SwapChain.cpp` (selection policies, `create`/`cleanup`/`recreate`) and of
`main.cpp` (physical-device selection, error propagation at the process
boundary), with theorems settling the specified properties.

Machine integers (`uint32_t`) are modelled as `Nat`; the code under study
performs no arithmetic that can overflow (only comparisons, `max`, clamping),
so no explicit `% 2^32` reduction is needed.
-/

namespace AcceleRender

/-- Model of `vk::Extent2D`: a width/height pair of `uint32_t`. -/
structure Extent2D where
  width : Nat
  height : Nat
deriving DecidableEq, Repr

/-- Model of `vk::SurfaceCapabilitiesKHR`, restricted to the fields `SwapChain.cpp`
reads: image-count bounds and extent bounds. -/
structure SurfaceCapabilitiesKHR where
  minImageCount : Nat
  maxImageCount : Nat
  currentExtent : Extent2D
  minImageExtent : Extent2D
  maxImageExtent : Extent2D
deriving DecidableEq, Repr

/-- The value `std::numeric_limits<uint32_t>::max()`, the sentinel meaning "the surface
lets the application choose the extent". -/
def UINT32_MAX : Nat := 2 ^ 32 - 1

/-- The C++ `std::clamp(v, lo, hi)`: `lo` if `v < lo`, else `hi` if `hi < v`, else
`v` (the C++ definition, which requires `lo ≤ hi` to be meaningful). -/
def clampU32 (v lo hi : Nat) : Nat :=
  if v < lo then lo else if hi < v then hi else v

/-- Translation of `SwapChain::chooseSwapExtent` (SwapChain.cpp lines 188-209): if
`currentExtent.width` differs from the `UINT32_MAX` sentinel, return
`currentExtent` verbatim; otherwise clamp the hard-coded default 800x600
componentwise into `[minImageExtent, maxImageExtent]`. -/
def chooseSwapExtent (capabilities : SurfaceCapabilitiesKHR) : Extent2D :=
  if capabilities.currentExtent.width ≠ UINT32_MAX then
    capabilities.currentExtent
  else
    { width := clampU32 800 capabilities.minImageExtent.width
        capabilities.maxImageExtent.width,
      height := clampU32 600 capabilities.minImageExtent.height
        capabilities.maxImageExtent.height }

/-- Model of `vk::Format`, restricted to the one constructor the code names plus an
opaque code for every other format. -/
inductive Format where
  | eB8G8R8A8Srgb
  | otherFormat (code : Nat)
deriving DecidableEq, Repr

/-- Model of `vk::ColorSpaceKHR`, restricted likewise. -/
inductive ColorSpaceKHR where
  | eSrgbNonlinear
  | otherColorSpace (code : Nat)
deriving DecidableEq, Repr

/-- Model of `vk::SurfaceFormatKHR`: a pixel format paired with a color space. -/
structure SurfaceFormatKHR where
  format : Format
  colorSpace : ColorSpaceKHR
deriving DecidableEq, Repr

/-- The preferred surface format of `chooseSwapSurfaceFormat`:
`VK_FORMAT_B8G8R8A8_SRGB` with `VK_COLOR_SPACE_SRGB_NONLINEAR_KHR`. -/
def preferredSurfaceFormat : SurfaceFormatKHR :=
  { format := Format.eB8G8R8A8Srgb, colorSpace := ColorSpaceKHR.eSrgbNonlinear }

/-- Translation of `SwapChain::chooseSwapSurfaceFormat` (SwapChain.cpp lines 245-255): scan
`availableFormats` in order for the preferred format; if the loop finds none,
fall back to `availableFormats[0]`. The fallback is an unguarded index; on an
empty vector it reads out of bounds, which the embedding renders as `none`
(`availableFormats[0]?`). -/
def chooseSwapSurfaceFormat (availableFormats : List SurfaceFormatKHR) :
    Option SurfaceFormatKHR :=
  match availableFormats.find? (fun f =>
      f.format == Format.eB8G8R8A8Srgb
        && f.colorSpace == ColorSpaceKHR.eSrgbNonlinear) with
  | some f => some f
  | none => availableFormats[0]?

/-- Model of `vk::PresentModeKHR`, restricted to the constructors the code names plus
an opaque code for every other mode. -/
inductive PresentModeKHR where
  | eImmediate
  | eMailbox
  | eFifo
  | otherMode (code : Nat)
deriving DecidableEq, Repr

/-- Translation of `SwapChain::chooseSwapPresentMode` (SwapChain.cpp lines 224-233): scan
`availablePresentModes` in order and return the first mailbox entry; if the
loop finds none, return FIFO. -/
def chooseSwapPresentMode (availablePresentModes : List PresentModeKHR) :
    PresentModeKHR :=
  match availablePresentModes.find? (fun m => m == PresentModeKHR.eMailbox) with
  | some mode => mode
  | none => PresentModeKHR.eFifo

/-- The image-count computation inside `SwapChain::create` (SwapChain.cpp
lines 58-63): `minImageCount = max(3u, capabilities.minImageCount)`, then cap
at `capabilities.maxImageCount` when that bound is nonzero (0 means no
limit). -/
def selectImageCount (capabilities : SurfaceCapabilitiesKHR) : Nat :=
  let minImageCount := max 3 capabilities.minImageCount
  if 0 < capabilities.maxImageCount ∧
      capabilities.maxImageCount < minImageCount then
    capabilities.maxImageCount
  else
    minImageCount

/-- The mutable fields of class `SwapChain` that `create`/`cleanup` touch.
Handles are modelled as `Nat` identifiers; `swapChain` is the owned
`vk::raii::SwapchainKHR` wrapper, `none` standing for the null handle. -/
structure SwapChainState where
  swapChainImages : List Nat
  swapChainImageViews : List Nat
  swapChain : Option Unit
  swapChainImageFormat : Format
  swapChainExtent : Extent2D
deriving DecidableEq, Repr

/-- Backend model for `swapChain.getImages()`: the driver hands back one raw
image handle per requested image. The Vulkan driver owns these handles and
must return at least the requested `minImageCount`; the model takes the
minimal conformant driver, which returns exactly the requested count. -/
def backendGetImages (requestedCount : Nat) : List Nat :=
  List.range requestedCount

/-- Model of `vkutils::createImageView(device, image, format, aspect, mipLevels)`:
builds one view over one image; the view handle is modelled by the image
handle it wraps. -/
def createImageView (image : Nat) : Nat := image

/-- Translation of `SwapChain::create` (SwapChain.cpp lines 39-132), as a function of the
queried surface capabilities, surface formats and present modes (the
Capability Query Layer inputs). It chooses format, extent, image count and
present mode, builds the chain, retrieves the backend images, and builds one
view per image. The result is `none` when `chooseSwapSurfaceFormat` reads out
of bounds (empty format list); Vulkan-level creation failures (exceptions)
are outside the state function and modelled in the trace/error sections. -/
def SwapChain.create (s : SwapChainState)
    (surfaceCapabilities : SurfaceCapabilitiesKHR)
    (availableFormats : List SurfaceFormatKHR)
    (availablePresentModes : List PresentModeKHR) : Option SwapChainState :=
  match chooseSwapSurfaceFormat availableFormats with
  | none => none
  | some chosenSurfaceFormat =>
    let swapChainImageFormat := chosenSurfaceFormat.format
    let swapChainExtent := chooseSwapExtent surfaceCapabilities
    let minImageCount := selectImageCount surfaceCapabilities
    let _presentMode := chooseSwapPresentMode availablePresentModes
    let swapChainImages := backendGetImages minImageCount
    let clearedViews : List Nat := []
    let swapChainImageViews :=
      clearedViews ++ swapChainImages.map createImageView
    some { s with
      swapChainImages := swapChainImages,
      swapChainImageViews := swapChainImageViews,
      swapChain := some (),
      swapChainImageFormat := swapChainImageFormat,
      swapChainExtent := swapChainExtent }

/-- Translation of `SwapChain::cleanup` (SwapChain.cpp lines 148-156): clear the image-view
vector (destroying every view), then reset the swap-chain wrapper to the null
handle. The raw backend-owned image handles are not touched. -/
def SwapChain.cleanup (s : SwapChainState) : SwapChainState :=
  { s with swapChainImageViews := [], swapChain := none }

/-- Translation of `SwapChain::recreate` (SwapChain.cpp lines 168-172): `cleanup()` then
`create()`, nothing else. -/
def SwapChain.recreate (s : SwapChainState)
    (surfaceCapabilities : SurfaceCapabilitiesKHR)
    (availableFormats : List SurfaceFormatKHR)
    (availablePresentModes : List PresentModeKHR) : Option SwapChainState :=
  SwapChain.create (SwapChain.cleanup s) surfaceCapabilities availableFormats
    availablePresentModes

/-- Observable resource operations of the swap-chain lifecycle, for the
temporal ordering claims. -/
inductive Event where
  | destroyImageView (idx : Nat)
  | destroySwapchain
  | queryCapabilities
  | createSwapchain
  | getImages
  | createView (idx : Nat)
deriving DecidableEq, Repr

/-- The operations `SwapChain::cleanup` performs, in program order: destroy
every image view (vector `clear()`, front to back), then release the
swap-chain handle. -/
def cleanupTrace (s : SwapChainState) : List Event :=
  (List.range s.swapChainImageViews.length).map Event.destroyImageView
    ++ [Event.destroySwapchain]

/-- The operations `SwapChain::create` performs, in program order: query the
surface, create the new chain, retrieve its images, then build one view per
image. -/
def createTrace (surfaceCapabilities : SurfaceCapabilitiesKHR) : List Event :=
  [Event.queryCapabilities, Event.createSwapchain, Event.getImages]
    ++ (List.range (selectImageCount surfaceCapabilities)).map Event.createView

/-- The operations `SwapChain::recreate` performs: the body is literally
`cleanup(); create();`, so the trace is the concatenation of the two. -/
def recreateTrace (s : SwapChainState)
    (surfaceCapabilities : SurfaceCapabilitiesKHR) : List Event :=
  cleanupTrace s ++ createTrace surfaceCapabilities

/-- Model of `vk::QueueFamilyProperties`, restricted to the flag word the code reads;
`queueFlags` is a `uint32` bitmask. -/
structure QueueFamilyProperties where
  queueFlags : Nat
deriving DecidableEq, Repr

/-- The bit `vk::QueueFlagBits::eGraphics` = `VK_QUEUE_GRAPHICS_BIT` = 0x1. -/
def eGraphics : Nat := 1

/-- The constant `VK_API_VERSION_1_3` = `VK_MAKE_API_VERSION(0, 1, 3, 0)`
= `(1 << 22) | (3 << 12)`. -/
def VK_API_VERSION_1_3 : Nat := (1 <<< 22) + (3 <<< 12)

/-- The data `pickPhysicalGPU` reads from one enumerated
`vk::raii::PhysicalDevice`: `getProperties().apiVersion`, the queue-family
list, and the names of the supported device extensions. -/
structure PhysicalDevice where
  apiVersion : Nat
  queueFamilies : List QueueFamilyProperties
  extensionNames : List String
deriving DecidableEq, Repr

/-- Translation of `AcceleRender::gpuExtensions` (main.cpp lines 50-53): the required device
extension set. -/
def gpuExtensions : List String :=
  ["VK_KHR_swapchain", "VK_KHR_spirv_1_4", "VK_KHR_synchronization2",
   "VK_KHR_create_renderpass2"]

/-- The suitability predicate inside `AcceleRender::pickPhysicalGPU`
(main.cpp lines 101-124): API version at least 1.3, some queue family with
the graphics bit set, and every required device extension present. -/
def isSuitable (gpu : PhysicalDevice) : Bool :=
  decide (VK_API_VERSION_1_3 ≤ gpu.apiVersion)
    && gpu.queueFamilies.any (fun qfp =>
        decide (qfp.queueFlags &&& eGraphics ≠ 0))
    && gpuExtensions.all (fun extension =>
        gpu.extensionNames.any (fun ext => ext == extension))

/-- Translation of `AcceleRender::pickPhysicalGPU` (main.cpp lines 98-130):
`std::ranges::find_if` over the enumerated devices with the suitability
predicate — the first suitable device is stored in `physicalGPU` — and a
`std::runtime_error` when no device is suitable. -/
def pickPhysicalGPU (gpus : List PhysicalDevice) :
    Except String PhysicalDevice :=
  match gpus.find? isSuitable with
  | some gpu => Except.ok gpu
  | none => Except.error "Failed to find a GPU that supports Vulkan 1.3!"

/-- The `initVulkan` sequence of `AcceleRender::run` (main.cpp lines 232-237):
`createInstance`, `setupDebugMessenger`/`pickPhysicalGPU`, `pickLogicalGPU`
run in order; each may throw (`Except.error msg` carrying the exception
message) and none contains a `try`/`catch`, so the monadic bind propagates
the first error unchanged to the caller. -/
def runApp (createInstanceResult : Except String Unit)
    (pickPhysicalResult : Except String Unit)
    (pickLogicalResult : Except String Unit) : Except String Unit := do
  createInstanceResult
  pickPhysicalResult
  pickLogicalResult

/-- Translation of `main` (main.cpp lines 251-260): run the app inside the sole
`try`/`catch`; on exception print `e.what()` to `std::cerr` once and return
`EXIT_FAILURE` (1); otherwise return `EXIT_SUCCESS` (0). The result pairs
the lines printed to the error stream with the exit status. -/
def mainEntry (runResult : Except String Unit) : List String × Nat :=
  match runResult with
  | Except.ok _ => ([], 0)
  | Except.error e => ([e], 1)

/-! Concrete fixtures used by witnesses and counterexamples. -/

/-- A default-constructed `SwapChain` member state: null chain handle, no
images, no views. -/
def initialState : SwapChainState :=
  { swapChainImages := [], swapChainImageViews := [], swapChain := none,
    swapChainImageFormat := Format.eB8G8R8A8Srgb,
    swapChainExtent := { width := 0, height := 0 } }

/-- A live swap-chain state holding two images and their two views. -/
def liveState : SwapChainState :=
  { swapChainImages := [0, 1], swapChainImageViews := [0, 1],
    swapChain := some (), swapChainImageFormat := Format.eB8G8R8A8Srgb,
    swapChainExtent := { width := 1280, height := 720 } }

/-- Capabilities with a fixed current extent and room for triple buffering. -/
def capsRoomy : SurfaceCapabilitiesKHR :=
  { minImageCount := 2, maxImageCount := 8,
    currentExtent := { width := 1280, height := 720 },
    minImageExtent := { width := 1, height := 1 },
    maxImageExtent := { width := 4096, height := 4096 } }

/-- Capabilities that cap the image count at 2. -/
def capsMaxTwo : SurfaceCapabilitiesKHR :=
  { minImageCount := 2, maxImageCount := 2,
    currentExtent := { width := 1280, height := 720 },
    minImageExtent := { width := 1, height := 1 },
    maxImageExtent := { width := 4096, height := 4096 } }

/-- Capabilities whose current extent is the full "any" sentinel. -/
def capsAnyExtent : SurfaceCapabilitiesKHR :=
  { minImageCount := 2, maxImageCount := 8,
    currentExtent := { width := UINT32_MAX, height := UINT32_MAX },
    minImageExtent := { width := 1, height := 1 },
    maxImageExtent := { width := 4096, height := 4096 } }

/-- Capabilities whose current extent has sentinel width but a real height. -/
def capsSentinelWidthOnly : SurfaceCapabilitiesKHR :=
  { minImageCount := 2, maxImageCount := 8,
    currentExtent := { width := UINT32_MAX, height := 720 },
    minImageExtent := { width := 1, height := 1 },
    maxImageExtent := { width := 4096, height := 4096 } }

/-! Helper lemmas shared between claims. -/

/-- Clamping lands in `[lo, hi]` whenever that interval is nonempty. -/
theorem clampU32_bounds (v lo hi : Nat) (h : lo ≤ hi) :
    lo ≤ clampU32 v lo hi ∧ clampU32 v lo hi ≤ hi := by
  unfold clampU32
  split_ifs <;> omega

/-- The loop predicate of `chooseSwapSurfaceFormat` holds exactly at the
preferred format. -/
theorem surfaceFormat_pred_iff (f : SurfaceFormatKHR) :
    (f.format == Format.eB8G8R8A8Srgb
      && f.colorSpace == ColorSpaceKHR.eSrgbNonlinear) = true ↔
      f = preferredSurfaceFormat := by
  cases f
  simp [preferredSurfaceFormat, SurfaceFormatKHR.mk.injEq, Bool.and_eq_true,
    beq_iff_eq]

/-! C3: the extent-selection policy, as the spec states it. -/

/-- C3 (counterexample): the claim says every capabilities input whose
`currentExtent` is not the full sentinel pair `(UINT32_MAX, UINT32_MAX)` gets
`currentExtent` back verbatim. The code tests only the width, so the input
with `currentExtent = (UINT32_MAX, 720)` — not the sentinel pair — takes the
clamped-default branch and returns `(800, 600)` instead of its
`currentExtent`. -/
theorem chooseSwapExtent_verbatim_counterexample :
    capsSentinelWidthOnly.currentExtent ≠
      { width := UINT32_MAX, height := UINT32_MAX } ∧
    chooseSwapExtent capsSentinelWidthOnly = { width := 800, height := 600 } ∧
    chooseSwapExtent capsSentinelWidthOnly ≠
      capsSentinelWidthOnly.currentExtent := by
  refine ⟨?_, ?_, ?_⟩ <;> decide

/-- C3 (amended): when `currentExtent.width` equals the `UINT32_MAX`
sentinel, `chooseSwapExtent` returns the default candidate `(800, 600)` with
each dimension independently clamped into `[minImageExtent, maxImageExtent]`;
when the width differs from the sentinel it returns `currentExtent` verbatim;
and re-running on identical capabilities yields an identical extent. -/
theorem chooseSwapExtent_amended_spec (caps : SurfaceCapabilitiesKHR)
    (hw : caps.minImageExtent.width ≤ caps.maxImageExtent.width)
    (hh : caps.minImageExtent.height ≤ caps.maxImageExtent.height) :
    (caps.currentExtent.width = UINT32_MAX →
      chooseSwapExtent caps =
        { width := clampU32 800 caps.minImageExtent.width
            caps.maxImageExtent.width,
          height := clampU32 600 caps.minImageExtent.height
            caps.maxImageExtent.height } ∧
      caps.minImageExtent.width ≤ (chooseSwapExtent caps).width ∧
      (chooseSwapExtent caps).width ≤ caps.maxImageExtent.width ∧
      caps.minImageExtent.height ≤ (chooseSwapExtent caps).height ∧
      (chooseSwapExtent caps).height ≤ caps.maxImageExtent.height) ∧
    (caps.currentExtent.width ≠ UINT32_MAX →
      chooseSwapExtent caps = caps.currentExtent) ∧
    chooseSwapExtent caps = chooseSwapExtent caps := by
  refine ⟨fun hsent => ?_, fun hns => ?_, rfl⟩
  · have hdef : chooseSwapExtent caps =
        { width := clampU32 800 caps.minImageExtent.width
            caps.maxImageExtent.width,
          height := clampU32 600 caps.minImageExtent.height
            caps.maxImageExtent.height } := by
      unfold chooseSwapExtent
      simp [hsent]
    refine ⟨hdef, ?_, ?_, ?_, ?_⟩ <;> rw [hdef]
    · exact (clampU32_bounds 800 _ _ hw).1
    · exact (clampU32_bounds 800 _ _ hw).2
    · exact (clampU32_bounds 600 _ _ hh).1
    · exact (clampU32_bounds 600 _ _ hh).2
  · unfold chooseSwapExtent
    simp [hns]

/-- C3 (witness): the amended theorem applied to the sentinel-extent
capabilities with range `[1, 4096] x [1, 4096]` yields `(800, 600)`. -/
theorem chooseSwapExtent_amended_spec_witness :
    chooseSwapExtent capsAnyExtent = { width := 800, height := 600 } := by
  have h :=
    (chooseSwapExtent_amended_spec capsAnyExtent (by decide) (by decide)).1
      (by decide)
  rw [h.1]
  decide

/-! C10: the sentinel test reads only the width component. -/

/-- C10: `chooseSwapExtent` compares only `currentExtent.width` against
`UINT32_MAX`: whenever the width differs from the sentinel the result is
`currentExtent` verbatim (even if the height equals `UINT32_MAX`), and the
clamped-default branch is taken exactly when the width equals the
sentinel. -/
theorem chooseSwapExtent_width_only_sentinel (caps : SurfaceCapabilitiesKHR) :
    (caps.currentExtent.width ≠ UINT32_MAX →
      chooseSwapExtent caps = caps.currentExtent) ∧
    (caps.currentExtent.width = UINT32_MAX →
      chooseSwapExtent caps =
        { width := clampU32 800 caps.minImageExtent.width
            caps.maxImageExtent.width,
          height := clampU32 600 caps.minImageExtent.height
            caps.maxImageExtent.height }) := by
  constructor <;> intro hcase <;> unfold chooseSwapExtent <;> simp [hcase]

/-- C10 (witness): a capabilities input whose height is `UINT32_MAX` but
whose width is 1280 still gets its `currentExtent` back verbatim. -/
theorem chooseSwapExtent_width_only_sentinel_witness :
    chooseSwapExtent
      { minImageCount := 2, maxImageCount := 8,
        currentExtent := { width := 1280, height := UINT32_MAX },
        minImageExtent := { width := 1, height := 1 },
        maxImageExtent := { width := 4096, height := 4096 } } =
      { width := 1280, height := UINT32_MAX } := by
  exact (chooseSwapExtent_width_only_sentinel _).1 (by decide)

/-! C4: the surface-format selection policy. -/

/-- C4: every candidate list containing the preferred format (B8G8R8A8 sRGB
with sRGB non-linear color space) makes `chooseSwapSurfaceFormat` return
exactly that entry; every list lacking it makes the function return the first
element in input order. -/
theorem chooseSwapSurfaceFormat_spec (availableFormats : List SurfaceFormatKHR) :
    (preferredSurfaceFormat ∈ availableFormats →
      chooseSwapSurfaceFormat availableFormats = some preferredSurfaceFormat) ∧
    (preferredSurfaceFormat ∉ availableFormats →
      ∀ x xs, availableFormats = x :: xs →
        chooseSwapSurfaceFormat availableFormats = some x) := by
  constructor
  · intro hmem
    have hsome : (availableFormats.find? (fun f =>
        f.format == Format.eB8G8R8A8Srgb
          && f.colorSpace == ColorSpaceKHR.eSrgbNonlinear)).isSome := by
      rw [List.find?_isSome]
      exact ⟨preferredSurfaceFormat, hmem,
        (surfaceFormat_pred_iff preferredSurfaceFormat).mpr rfl⟩
    obtain ⟨f, hf⟩ := Option.isSome_iff_exists.mp hsome
    have hpred := List.find?_some hf
    have hfp : f = preferredSurfaceFormat :=
      (surfaceFormat_pred_iff f).mp hpred
    unfold chooseSwapSurfaceFormat
    rw [hf, hfp]
  · intro hnot x xs hcons
    have hnone : availableFormats.find? (fun f =>
        f.format == Format.eB8G8R8A8Srgb
          && f.colorSpace == ColorSpaceKHR.eSrgbNonlinear) = none := by
      rw [List.find?_eq_none]
      intro g hg hpred
      exact hnot ((surfaceFormat_pred_iff g).mp hpred ▸ hg)
    unfold chooseSwapSurfaceFormat
    rw [hnone, hcons]
    simp

/-- C4 (witness): the spec scenario — a list whose second entry is the
preferred format — selects that second entry; and a list lacking the
preferred format yields its first element. -/
theorem chooseSwapSurfaceFormat_spec_witness :
    chooseSwapSurfaceFormat
      [{ format := Format.otherFormat 7,
         colorSpace := ColorSpaceKHR.otherColorSpace 9 },
       preferredSurfaceFormat] = some preferredSurfaceFormat ∧
    chooseSwapSurfaceFormat
      [{ format := Format.otherFormat 7,
         colorSpace := ColorSpaceKHR.otherColorSpace 9 }] =
      some { format := Format.otherFormat 7,
             colorSpace := ColorSpaceKHR.otherColorSpace 9 } :=
  ⟨(chooseSwapSurfaceFormat_spec
      [{ format := Format.otherFormat 7,
         colorSpace := ColorSpaceKHR.otherColorSpace 9 },
       preferredSurfaceFormat]).1 (by decide),
   (chooseSwapSurfaceFormat_spec
      [{ format := Format.otherFormat 7,
         colorSpace := ColorSpaceKHR.otherColorSpace 9 }]).2 (by decide)
     { format := Format.otherFormat 7,
       colorSpace := ColorSpaceKHR.otherColorSpace 9 } [] rfl⟩

/-! C5: the present-mode selection policy. -/

/-- C5: every candidate list containing the mailbox mode makes
`chooseSwapPresentMode` return mailbox; every list lacking it yields FIFO;
and the result is never any third mode, whatever the input holds. -/
theorem chooseSwapPresentMode_spec (availablePresentModes : List PresentModeKHR) :
    (PresentModeKHR.eMailbox ∈ availablePresentModes →
      chooseSwapPresentMode availablePresentModes = PresentModeKHR.eMailbox) ∧
    (PresentModeKHR.eMailbox ∉ availablePresentModes →
      chooseSwapPresentMode availablePresentModes = PresentModeKHR.eFifo) ∧
    (chooseSwapPresentMode availablePresentModes = PresentModeKHR.eMailbox ∨
      chooseSwapPresentMode availablePresentModes = PresentModeKHR.eFifo) := by
  refine ⟨fun hmem => ?_, fun hnot => ?_, ?_⟩
  · have hsome : (availablePresentModes.find? (fun m =>
        m == PresentModeKHR.eMailbox)).isSome := by
      rw [List.find?_isSome]
      exact ⟨PresentModeKHR.eMailbox, hmem, by simp⟩
    obtain ⟨m, hm⟩ := Option.isSome_iff_exists.mp hsome
    have hmp : m = PresentModeKHR.eMailbox := by
      have := List.find?_some hm
      simpa [beq_iff_eq] using this
    unfold chooseSwapPresentMode
    rw [hm, hmp]
  · have hnone : availablePresentModes.find? (fun m =>
        m == PresentModeKHR.eMailbox) = none := by
      rw [List.find?_eq_none]
      intro m hmmem hpred
      rw [beq_iff_eq] at hpred
      exact hnot (hpred ▸ hmmem)
    unfold chooseSwapPresentMode
    rw [hnone]
  · unfold chooseSwapPresentMode
    cases hfind : availablePresentModes.find? (fun m =>
        m == PresentModeKHR.eMailbox) with
    | none => exact Or.inr rfl
    | some m =>
      left
      have := List.find?_some hfind
      simpa [beq_iff_eq] using this

/-- C5 (witness): the spec scenarios — the list `[FIFO]` yields FIFO and the
list `[FIFO, MAILBOX]` yields MAILBOX. -/
theorem chooseSwapPresentMode_spec_witness :
    chooseSwapPresentMode [PresentModeKHR.eFifo] = PresentModeKHR.eFifo ∧
    chooseSwapPresentMode [PresentModeKHR.eFifo, PresentModeKHR.eMailbox] =
      PresentModeKHR.eMailbox :=
  ⟨(chooseSwapPresentMode_spec _).2.1 (by decide),
   (chooseSwapPresentMode_spec _).1 (by decide)⟩

/-! C6: the image-count selection inside `create`. -/

/-- C6: the image count selected inside `create()` equals
`max(3, minImageCount)` clamped down to `maxImageCount` whenever
`maxImageCount` is nonzero (0 meaning unbounded); with `minImageCount = 2`
(so a requested minimum of 3) and `maxImageCount = 2` the selected count
is 2. -/
theorem selectImageCount_spec (caps : SurfaceCapabilitiesKHR) :
    selectImageCount caps =
      (if caps.maxImageCount = 0 then max 3 caps.minImageCount
       else min (max 3 caps.minImageCount) caps.maxImageCount) ∧
    selectImageCount capsMaxTwo = 2 := by
  constructor
  · have h : selectImageCount caps =
        if 0 < caps.maxImageCount ∧
            caps.maxImageCount < max 3 caps.minImageCount then
          caps.maxImageCount
        else max 3 caps.minImageCount := rfl
    rw [h]
    split_ifs <;> omega
  · decide

/-! C9: the non-emptiness precondition of `chooseSwapSurfaceFormat`. -/

/-- C9: on every non-empty candidate list `chooseSwapSurfaceFormat` returns
an element of the list; on the empty list the fallback `availableFormats[0]`
reads out of bounds, rendered here as the `none` result — so the unguarded
index is safe exactly under the non-emptiness hypothesis. -/
theorem chooseSwapSurfaceFormat_safety (availableFormats : List SurfaceFormatKHR) :
    (availableFormats ≠ [] →
      ∃ f, chooseSwapSurfaceFormat availableFormats = some f ∧
        f ∈ availableFormats) ∧
    (availableFormats = [] →
      chooseSwapSurfaceFormat availableFormats = none) := by
  constructor
  · intro hne
    unfold chooseSwapSurfaceFormat
    cases hfind : availableFormats.find? (fun f =>
        f.format == Format.eB8G8R8A8Srgb
          && f.colorSpace == ColorSpaceKHR.eSrgbNonlinear) with
    | some f => exact ⟨f, rfl, List.mem_of_find?_eq_some hfind⟩
    | none =>
      cases availableFormats with
      | nil => exact absurd rfl hne
      | cons x xs => exact ⟨x, by simp, List.mem_cons_self x xs⟩
  · intro hnil
    subst hnil
    rfl

/-- C9 (witness): a one-element list lacking the preferred format still
yields a defined result (no out-of-bounds access). -/
theorem chooseSwapSurfaceFormat_safety_witness :
    (chooseSwapSurfaceFormat
      [{ format := Format.otherFormat 7,
         colorSpace := ColorSpaceKHR.otherColorSpace 9 }]).isSome = true := by
  obtain ⟨f, hf, _⟩ :=
    (chooseSwapSurfaceFormat_safety
      [{ format := Format.otherFormat 7,
         colorSpace := ColorSpaceKHR.otherColorSpace 9 }]).1 (by decide)
  rw [hf]
  rfl

/-! C2: the image/view count invariant after `create`. -/

/-- C2 (counterexample): the claim says the common image/view count is at
least `max(3, minImageCount)` after every successful `create()`. With
capabilities reporting `minImageCount = 2` and `maxImageCount = 2`, the code
clamps its request down to 2 and `create` finishes with 2 images and 2
views — below `max(3, 2) = 3`. -/
theorem create_count_counterexample :
    ((SwapChain.create initialState capsMaxTwo [preferredSurfaceFormat]
        [PresentModeKHR.eFifo]).map
      (fun t => (t.swapChainImages.length, t.swapChainImageViews.length))) =
      some (2, 2) ∧
    (2 : Nat) < max 3 capsMaxTwo.minImageCount := by
  refine ⟨?_, ?_⟩ <;> decide

/-- C2 (amended): after every successful `create()`, the number of image
views equals the number of swap-chain images; that common count equals the
selected image count — `max(3, minImageCount)` clamped down to
`maxImageCount` when nonzero — so it is at most `maxImageCount` whenever
`maxImageCount ≠ 0`, and it is at least `max(3, minImageCount)` whenever
`maxImageCount` is zero or itself at least `max(3, minImageCount)`. -/
theorem create_image_view_count_spec (s : SwapChainState)
    (caps : SurfaceCapabilitiesKHR) (fmts : List SurfaceFormatKHR)
    (modes : List PresentModeKHR) (t : SwapChainState)
    (hc : SwapChain.create s caps fmts modes = some t) :
    t.swapChainImageViews.length = t.swapChainImages.length ∧
    t.swapChainImages.length = selectImageCount caps ∧
    (caps.maxImageCount ≠ 0 →
      t.swapChainImages.length ≤ caps.maxImageCount) ∧
    ((caps.maxImageCount = 0 ∨
        max 3 caps.minImageCount ≤ caps.maxImageCount) →
      max 3 caps.minImageCount ≤ t.swapChainImages.length) := by
  unfold SwapChain.create at hc
  cases hfind : chooseSwapSurfaceFormat fmts with
  | none =>
    rw [hfind] at hc
    exact absurd hc (by simp)
  | some chosen =>
    rw [hfind] at hc
    have ht : t = { s with
        swapChainImages := backendGetImages (selectImageCount caps),
        swapChainImageViews :=
          [] ++ (backendGetImages (selectImageCount caps)).map createImageView,
        swapChain := some (),
        swapChainImageFormat := chosen.format,
        swapChainExtent := chooseSwapExtent caps } := by
      exact (Option.some.injEq _ _).mp hc.symm
    subst ht
    have hsel : selectImageCount caps =
        if 0 < caps.maxImageCount ∧
            caps.maxImageCount < max 3 caps.minImageCount then
          caps.maxImageCount
        else max 3 caps.minImageCount := rfl
    refine ⟨by simp [backendGetImages], by simp [backendGetImages], ?_, ?_⟩
    · intro hmax
      simp only [backendGetImages, List.length_range]
      rw [hsel]
      split_ifs <;> omega
    · intro hcases
      simp only [backendGetImages, List.length_range]
      rw [hsel]
      split_ifs <;> omega

/-- C2 (witness): with roomy capabilities (`minImageCount = 2`,
`maxImageCount = 8`) a successful `create` ends with equal view and image
counts, both within the claimed bounds. -/
theorem create_image_view_count_spec_witness :
    (SwapChain.create initialState capsRoomy [preferredSurfaceFormat]
        [PresentModeKHR.eFifo]).elim False
      (fun t => t.swapChainImageViews.length = t.swapChainImages.length ∧
        max 3 capsRoomy.minImageCount ≤ t.swapChainImages.length ∧
        t.swapChainImages.length ≤ capsRoomy.maxImageCount) := by
  cases hcre : SwapChain.create initialState capsRoomy [preferredSurfaceFormat]
      [PresentModeKHR.eFifo] with
  | none => exact absurd hcre (by decide)
  | some t =>
    have h := create_image_view_count_spec initialState capsRoomy
      [preferredSurfaceFormat] [PresentModeKHR.eFifo] t hcre
    exact ⟨h.1, h.2.2.2 (Or.inr (by decide)), h.2.2.1 (by decide)⟩

/-! C1: `recreate` is exactly `cleanup` followed by `create`. -/

/-- Index-level description of the cleanup trace: position `k` destroys view
number `k` while `k` is below the view count, the next position releases the
chain handle, and nothing follows. -/
theorem cleanupTrace_getElem (s : SwapChainState) (k : Nat) :
    (cleanupTrace s)[k]? =
      if k < s.swapChainImageViews.length then
        some (Event.destroyImageView k)
      else if k = s.swapChainImageViews.length then
        some Event.destroySwapchain
      else none := by
  unfold cleanupTrace
  rw [List.getElem?_append]
  simp only [List.length_map, List.length_range]
  split_ifs with h1 h2
  · rw [List.getElem?_map, List.getElem?_range h1]
    rfl
  · subst h2
    simp
  · rw [List.getElem?_eq_none]
    simp only [List.length_cons, List.length_nil]
    omega

/-- C1: `recreate()` is exactly `cleanup()` followed by `create()`: the
resulting state is `create` applied to the cleaned state, the operation trace
of `recreate` is the cleanup trace followed by the create trace with nothing
in between (the lengths add up exactly), and inside the cleanup trace every
view destruction strictly precedes the release of the swap-chain handle. -/
theorem recreate_cleanup_then_create (s : SwapChainState)
    (caps : SurfaceCapabilitiesKHR) (fmts : List SurfaceFormatKHR)
    (modes : List PresentModeKHR) :
    SwapChain.recreate s caps fmts modes =
      SwapChain.create (SwapChain.cleanup s) caps fmts modes ∧
    recreateTrace s caps = cleanupTrace s ++ createTrace caps ∧
    (recreateTrace s caps).length =
      (cleanupTrace s).length + (createTrace caps).length ∧
    (∀ k : Nat, (cleanupTrace s)[k]? = some Event.destroySwapchain →
      ∀ j i : Nat, (cleanupTrace s)[j]? = some (Event.destroyImageView i) →
        j < k) := by
  refine ⟨rfl, rfl, ?_, ?_⟩
  · unfold recreateTrace
    exact List.length_append _ _
  · intro k hk j i hj
    rw [cleanupTrace_getElem] at hk hj
    split_ifs at hk hj <;> simp_all

/-- C1 (witness): on a live state with two views, the recreate trace splits
into the cleanup and create traces, and the first view destruction precedes
the chain release (position 0 before position 2). -/
theorem recreate_cleanup_then_create_witness :
    recreateTrace liveState capsRoomy =
      cleanupTrace liveState ++ createTrace capsRoomy ∧
    (0 : Nat) < 2 :=
  ⟨(recreate_cleanup_then_create liveState capsRoomy [] []).2.1,
   (recreate_cleanup_then_create liveState capsRoomy [] []).2.2.2 2
     (by decide) 0 0 (by decide)⟩

/-! C7: physical-device suitability and first-match selection. -/

/-- C7: a device is judged suitable iff its API version meets the required
minimum, it exposes a queue family with graphics support, and it supports
every required device extension; `pickPhysicalGPU` returns the first suitable
device in enumeration order (every earlier device is unsuitable, with no
scoring among suitable ones) and fails with the runtime error when no device
is suitable. -/
theorem pickPhysicalGPU_spec (gpus : List PhysicalDevice) :
    (∀ gpu : PhysicalDevice, isSuitable gpu = true ↔
      (VK_API_VERSION_1_3 ≤ gpu.apiVersion ∧
        (∃ qfp ∈ gpu.queueFamilies, qfp.queueFlags &&& eGraphics ≠ 0) ∧
        ∀ extension ∈ gpuExtensions,
          extension ∈ gpu.extensionNames)) ∧
    (∀ gpu : PhysicalDevice, pickPhysicalGPU gpus = Except.ok gpu →
      isSuitable gpu = true ∧
      ∃ before after, gpus = before ++ gpu :: after ∧
        ∀ g ∈ before, isSuitable g = false) ∧
    (pickPhysicalGPU gpus =
        Except.error "Failed to find a GPU that supports Vulkan 1.3!" ↔
      ∀ gpu ∈ gpus, isSuitable gpu = false) := by
  refine ⟨fun gpu => ?_, fun gpu hok => ?_, ?_⟩
  · unfold isSuitable
    simp only [Bool.and_eq_true, decide_eq_true_eq, List.any_eq_true,
      List.all_eq_true, beq_iff_eq, and_assoc]
    constructor
    · rintro ⟨ha, hq, he⟩
      refine ⟨ha, hq, fun extension hext => ?_⟩
      obtain ⟨e, hemem, hee⟩ := he extension hext
      exact hee ▸ hemem
    · rintro ⟨ha, hq, he⟩
      exact ⟨ha, hq, fun extension hext => ⟨extension, he extension hext, rfl⟩⟩
  · unfold pickPhysicalGPU at hok
    cases hfind : gpus.find? isSuitable with
    | none => rw [hfind] at hok; exact absurd hok (by simp)
    | some g =>
      rw [hfind] at hok
      have hg : g = gpu := by
        simpa using hok
      subst hg
      obtain ⟨hp, as, bs, hsplit, hall⟩ := List.find?_eq_some.mp hfind
      refine ⟨hp, as, bs, hsplit, fun d hd => ?_⟩
      have := hall d hd
      simpa using this
  · unfold pickPhysicalGPU
    cases hfind : gpus.find? isSuitable with
    | none =>
      simp only [true_iff]
      intro gpu hmem
      have := List.find?_eq_none.mp hfind gpu hmem
      simpa using this
    | some g =>
      simp only [reduceCtorEq, false_iff, not_forall]
      refine ⟨g, List.mem_of_find?_eq_some hfind, ?_⟩
      rw [List.find?_some hfind]
      simp

/-- C7 (witness): in a two-device enumeration whose first device supports
nothing and whose second meets all three conditions, selection returns the
second device; and a single unsuitable device makes selection fail. -/
theorem pickPhysicalGPU_spec_witness :
    pickPhysicalGPU
      [{ apiVersion := 0, queueFamilies := [], extensionNames := [] }] =
      Except.error "Failed to find a GPU that supports Vulkan 1.3!" ∧
    isSuitable
      { apiVersion := VK_API_VERSION_1_3,
        queueFamilies := [{ queueFlags := 1 }],
        extensionNames := gpuExtensions } = true :=
  ⟨(pickPhysicalGPU_spec
      [{ apiVersion := 0, queueFamilies := [], extensionNames := [] }]).2.2.mpr
      (by decide),
   (pickPhysicalGPU_spec []).1
      { apiVersion := VK_API_VERSION_1_3,
        queueFamilies := [{ queueFlags := 1 }],
        extensionNames := gpuExtensions } |>.mpr
      ⟨le_refl _, ⟨{ queueFlags := 1 }, by simp, by decide⟩,
        fun extension hext => hext⟩⟩

/-! C8: error propagation to the process boundary. -/

/-- C8: every error raised by a setup step propagates through the
`initVulkan` chain uncaught (the monadic bind forwards the first error
unchanged); at the process boundary it is caught exactly once, its message
is printed to the error stream exactly once, and the exit status is the
non-zero failure code 1; an error-free run prints nothing and exits with the
success status 0. -/
theorem mainEntry_spec (c p l : Except String Unit) :
    (runApp c p l = Except.ok () → mainEntry (runApp c p l) = ([], 0)) ∧
    (∀ msg, runApp c p l = Except.error msg →
      mainEntry (runApp c p l) = ([msg], 1) ∧ (1 : Nat) ≠ 0) ∧
    (∀ msg, c = Except.error msg → runApp c p l = Except.error msg) ∧
    (∀ msg, c = Except.ok () → p = Except.error msg →
      runApp c p l = Except.error msg) ∧
    (c = Except.ok () → p = Except.ok () → runApp c p l = l) := by
  cases c <;> cases p <;> cases l <;>
    simp_all [runApp, mainEntry, Except.bind] <;> rfl

/-- C8 (witness): a failing `createInstance` (missing validation layer)
propagates to `main`, which prints exactly that message and exits with
status 1; the all-ok run exits with status 0. -/
theorem mainEntry_spec_witness :
    mainEntry (runApp
      (Except.error "Required layer not supported: VK_LAYER_KHRONOS_validation")
      (Except.ok ()) (Except.ok ())) =
      (["Required layer not supported: VK_LAYER_KHRONOS_validation"], 1) ∧
    mainEntry (runApp (Except.ok ()) (Except.ok ()) (Except.ok ())) =
      ([], 0) :=
  ⟨((mainEntry_spec
      (Except.error "Required layer not supported: VK_LAYER_KHRONOS_validation")
      (Except.ok ()) (Except.ok ())).2.1
      "Required layer not supported: VK_LAYER_KHRONOS_validation"
      ((mainEntry_spec
        (Except.error
          "Required layer not supported: VK_LAYER_KHRONOS_validation")
        (Except.ok ()) (Except.ok ())).2.2.1
        "Required layer not supported: VK_LAYER_KHRONOS_validation" rfl)).1,
   (mainEntry_spec (Except.ok ()) (Except.ok ()) (Except.ok ())).1 rfl⟩

end AcceleRender
